import Mathlib

/-
Shallow embedding of the ThreadGate repository (src/Gate.cpp).

The repository defines two synchronization primitives:

* `Gate` — a single-permit latch with fields `bool IsActivated = true`
  (true means a `Close` call must park) and a three-lock handshake
  (`mtx` state guard, `condVarMutex` waiter-present token, condition
  variable `cv` with its `lockMutex`/`lk`).
* `RecursiveGate` — the counting variant with `int ClosingAmount = 0`.

All permit-state reads and writes happen while holding the state guard
`mtx`, so the state-changing effect of each method is captured by a pure
function on the permit state.  The park decision of a `Close` variant
depends only on the permit state it observes under `mtx`; whether an
`Open` finds a parked waiter is captured by an explicit `waiterParked`
argument (in the source it is the result of `condVarMutex.try_lock()`).

Timed waits: following the C++ standard, `cv.wait_for(lk, d)` behaves as
`cv.wait_until(lk, now + d)`.  We model time as `Nat` instants and a wait
by an optional instant `wake` at which a notification would arrive
(`none` when no `Open` ever signals during the wait); the wait returns at
the earlier of the wake instant and the deadline, and reports whether it
timed out.

The blocking handshake between a parked `Close` and an `Open`
(`Gate::Open` lines 85-101 and `RecursiveGate::Open` lines 176-191,
whose spin loop `while (condVarMutex.try_lock() != true) cv.notify_all();`
is textually identical in both classes) is modelled separately as an
interleaved transition system, `HStep` below.
-/

namespace ThreadGate

/-! ## Timed-wait primitive (condition variable timed waits) -/

/-- Result of a timed `Close` variant: whether the caller took the
parking branch, the instant at which the call returned, and whether the
timed wait reported a timeout. -/
structure TimedResult where
  parked : Bool
  returnTime : Nat
  timedOut : Bool
  deriving DecidableEq

/-- Model of `cv.wait_until(lk, timePoint)`: given the optional instant
`wake` of an incoming notification, the wait returns at the earlier of
`wake` and the deadline, timing out when the deadline comes first.
Returns (return instant, timed out?). -/
def cvWaitUntil (wake : Option Nat) (deadline : Nat) : Nat × Bool :=
  match wake with
  | none => (deadline, true)
  | some w => if w ≤ deadline then (w, false) else (deadline, true)

/-- Model of `cv.wait_for(lk, duration)`: per the C++ standard this is
`cv.wait_until` at the absolute deadline `now + duration`. -/
def cvWaitFor (wake : Option Nat) (now d : Nat) : Nat × Bool :=
  cvWaitUntil wake (now + d)

/-! ## Gate (single-permit latch) -/

/-- Permit state of a `Gate`: the field `bool IsActivated` of class
`Gate` (src/Gate.cpp line 15).  `IsActivated = true` means no pending
permit (a `Close` must park); `Gate::Open` sets it to `false` to queue a
permit and the fast branch of `Gate::Close` sets it back to `true`. -/
structure Gate where
  IsActivated : Bool
  deriving DecidableEq

/-- A freshly constructed `Gate`: `bool IsActivated = true`
(src/Gate.cpp line 15). -/
def Gate.init : Gate := { IsActivated := true }

/-- Whether a pending permit is queued, in the vocabulary of the spec:
a permit is available exactly when `IsActivated` is `false`. -/
def Gate.permitAvailable (g : Gate) : Bool := !g.IsActivated

/-- `Gate::Close` (src/Gate.cpp lines 20-36).  Under `mtx`: if
`IsActivated` holds, take the parking branch (acquire `condVarMutex`,
park on `cv`, release `condVarMutex`); the flag is not touched on that
branch.  Otherwise consume the queued permit by setting
`IsActivated = true`.  Returns (parked?, new permit state). -/
def Gate.Close (g : Gate) : Bool × Gate :=
  if g.IsActivated then
    (true, g)
  else
    (false, { IsActivated := true })

/-- `Gate::CloseFor` (src/Gate.cpp lines 41-58): same branch structure
as `Gate::Close`, with the park realised by `cv.wait_for(lk, duration)`.
Neither branch of the parking path touches `IsActivated`. -/
def Gate.CloseFor (wake : Option Nat) (now d : Nat) (g : Gate) :
    TimedResult × Gate :=
  if g.IsActivated then
    let r := cvWaitFor wake now d
    ({ parked := true, returnTime := r.1, timedOut := r.2 }, g)
  else
    ({ parked := false, returnTime := now, timedOut := false },
      { IsActivated := true })

/-- `Gate::CloseUntil` (src/Gate.cpp lines 63-80): same branch structure
as `Gate::Close`, with the park realised by
`cv.wait_until(lk, timePoint)`. -/
def Gate.CloseUntil (wake : Option Nat) (now timePoint : Nat) (g : Gate) :
    TimedResult × Gate :=
  if g.IsActivated then
    let r := cvWaitUntil wake timePoint
    ({ parked := true, returnTime := r.1, timedOut := r.2 }, g)
  else
    ({ parked := false, returnTime := now, timedOut := false },
      { IsActivated := true })

/-- `Gate::Open` (src/Gate.cpp lines 85-101).  Under `mtx`:
`condVarMutex.try_lock()` succeeds exactly when no waiter is parked; in
that case set `IsActivated = false` (queue a permit).  Otherwise spin
`cv.notify_all()` until the token is released; that branch never touches
`IsActivated`.  The handshake itself is modelled by `HStep` below. -/
def Gate.Open (waiterParked : Bool) (g : Gate) : Gate :=
  if !waiterParked then
    { IsActivated := false }
  else
    g

/-! ## RecursiveGate (counting latch) -/

/-- Permit state of a `RecursiveGate`: the field `int ClosingAmount`
of class `RecursiveGate` (src/Gate.cpp line 115). -/
structure RecursiveGate where
  ClosingAmount : Int
  deriving DecidableEq

/-- A freshly constructed `RecursiveGate`: `int ClosingAmount = 0`
(src/Gate.cpp line 115). -/
def RecursiveGate.init : RecursiveGate := { ClosingAmount := 0 }

/-- `RecursiveGate::Close` (src/Gate.cpp lines 120-133).  Under `mtx`:
if `ClosingAmount <= 0`, take the parking branch; in either case the
statement `--ClosingAmount;` after the branch decrements the count.
Returns (parked?, new permit state). -/
def RecursiveGate.Close (g : RecursiveGate) : Bool × RecursiveGate :=
  if g.ClosingAmount ≤ 0 then
    (true, { ClosingAmount := g.ClosingAmount - 1 })
  else
    (false, { ClosingAmount := g.ClosingAmount - 1 })

/-- `RecursiveGate::CloseFor` (src/Gate.cpp lines 138-152): same branch
structure as `RecursiveGate::Close`, with the park realised by
`cv.wait_for(lk, duration)`; `--ClosingAmount;` runs on both paths,
regardless of why the wait returned. -/
def RecursiveGate.CloseFor (wake : Option Nat) (now d : Nat)
    (g : RecursiveGate) : TimedResult × RecursiveGate :=
  if g.ClosingAmount ≤ 0 then
    let r := cvWaitFor wake now d
    ({ parked := true, returnTime := r.1, timedOut := r.2 },
      { ClosingAmount := g.ClosingAmount - 1 })
  else
    ({ parked := false, returnTime := now, timedOut := false },
      { ClosingAmount := g.ClosingAmount - 1 })

/-- `RecursiveGate::CloseUntil` (src/Gate.cpp lines 157-171): same
branch structure, with the park realised by
`cv.wait_until(lk, timePoint)`; `--ClosingAmount;` runs on both paths. -/
def RecursiveGate.CloseUntil (wake : Option Nat) (now timePoint : Nat)
    (g : RecursiveGate) : TimedResult × RecursiveGate :=
  if g.ClosingAmount ≤ 0 then
    let r := cvWaitUntil wake timePoint
    ({ parked := true, returnTime := r.1, timedOut := r.2 },
      { ClosingAmount := g.ClosingAmount - 1 })
  else
    ({ parked := false, returnTime := now, timedOut := false },
      { ClosingAmount := g.ClosingAmount - 1 })

/-- `RecursiveGate::Open` (src/Gate.cpp lines 176-191).  Under `mtx`:
the branch on `!condVarMutex.try_lock()` (waiter parked: spin-wake
handshake; otherwise: release the token immediately) does not touch the
count; `++ClosingAmount;` then runs on both paths. -/
def RecursiveGate.Open (waiterParked : Bool) (g : RecursiveGate) :
    RecursiveGate :=
  if waiterParked then
    { ClosingAmount := g.ClosingAmount + 1 }
  else
    { ClosingAmount := g.ClosingAmount + 1 }

/-- `n` consecutive calls to `RecursiveGate::Open` with no waiter
parked. -/
def RecursiveGate.openN : Nat → RecursiveGate → RecursiveGate
  | 0, g => g
  | n + 1, g => RecursiveGate.openN n (RecursiveGate.Open false g)

/-- `n` consecutive calls to `RecursiveGate::Close`, collecting the
park flag of each call. -/
def RecursiveGate.closeRun : Nat → RecursiveGate → List Bool × RecursiveGate
  | 0, g => ([], g)
  | n + 1, g =>
    let r := RecursiveGate.Close g
    let rest := RecursiveGate.closeRun n r.2
    (r.1 :: rest.1, rest.2)

/-! ## The Open/Close wake handshake as an interleaved transition system

When `Open` is called while a thread is parked inside a `Close` variant,
two threads interact: the opener runs the loop
`while (condVarMutex.try_lock() != true) cv.notify_all();` (identical in
`Gate::Open`, src/Gate.cpp lines 93-99, and `RecursiveGate::Open`, lines
179-185), and the waiter, once `cv.wait` returns, executes
`condVarMutex.unlock(); mtx.lock();`.  The waiter acquired `condVarMutex`
before releasing `mtx` and parking, so it holds the token for the whole
parked wait.  We model the interleaving of the two threads directly. -/

/-- Program counter of the opener inside `Open`: it has entered holding
`mtx`; it is spinning in the notify loop; its `try_lock` on the token
succeeded; or it has released the token and `mtx` and returned. -/
inductive OpenPC where
  | entered
  | spinning
  | gotToken
  | returned
  deriving DecidableEq

/-- Program counter of the waiter inside a `Close` variant, from the
parked wait onward: parked in `cv.wait` holding the token; woken from
the wait but still holding the token; past `condVarMutex.unlock()`; or
past the final `mtx.lock()` (possible only once the opener released
`mtx`). -/
inductive WaiterPC where
  | parkedInWait
  | wokenHoldingToken
  | releasedToken
  | relockedGuard
  deriving DecidableEq

/-- Whether the waiter currently holds the waiter-present token
`condVarMutex`: from before parking until its `condVarMutex.unlock()`
after waking. -/
def tokenHeld (w : WaiterPC) : Bool :=
  match w with
  | .parkedInWait => true
  | .wokenHoldingToken => true
  | .releasedToken => false
  | .relockedGuard => false

/-- Joint state of the two threads during the handshake. -/
structure Handshake where
  opc : OpenPC
  wpc : WaiterPC
  deriving DecidableEq

/-- One interleaved step of the handshake.  The opener's
`condVarMutex.try_lock()` succeeds exactly when the waiter does not hold
the token; `cv.notify_all()` inside the spin loop wakes the parked
waiter; the waiter may release the token at any time after waking; and
the waiter's trailing `mtx.lock()` can proceed only after the opener has
released `mtx` by returning. -/
inductive HStep : Handshake → Handshake → Prop where
  | tryLockFail (w : WaiterPC) : tokenHeld w = true →
      HStep ⟨.entered, w⟩ ⟨.spinning, w⟩
  | tryLockFast (w : WaiterPC) : tokenHeld w = false →
      HStep ⟨.entered, w⟩ ⟨.gotToken, w⟩
  | notifyWakes : HStep ⟨.spinning, .parkedInWait⟩ ⟨.spinning, .wokenHoldingToken⟩
  | releaseToken (o : OpenPC) :
      HStep ⟨o, .wokenHoldingToken⟩ ⟨o, .releasedToken⟩
  | spinAcquire (w : WaiterPC) : tokenHeld w = false →
      HStep ⟨.spinning, w⟩ ⟨.gotToken, w⟩
  | openReturn (w : WaiterPC) : HStep ⟨.gotToken, w⟩ ⟨.returned, w⟩
  | waiterRelock : HStep ⟨.returned, .releasedToken⟩ ⟨.returned, .relockedGuard⟩

/-- States reachable from the configuration in which `Open` has just
been entered while a thread is parked in `Close`. -/
def HReachable (s : Handshake) : Prop :=
  Relation.ReflTransGen HStep ⟨.entered, .parkedInWait⟩ s

/-- The handshake invariant: once the opener has acquired the token (or
has returned), the waiter no longer holds it. -/
def HInv (s : Handshake) : Prop :=
  (s.opc = .gotToken ∨ s.opc = .returned) → tokenHeld s.wpc = false

lemma HStep_preserves {s t : Handshake} (h : HStep s t) (hs : HInv s) :
    HInv t := by
  cases h with
  | tryLockFail w hw => intro hc; exact absurd hc (by simp)
  | tryLockFast w hw => intro _; exact hw
  | notifyWakes => intro hc; exact absurd hc (by simp)
  | releaseToken o => intro _; rfl
  | spinAcquire w hw => intro _; exact hw
  | openReturn w => intro _; exact hs (Or.inl rfl)
  | waiterRelock => intro _; rfl

lemma HReachable_inv {s : Handshake} (h : HReachable s) : HInv s := by
  induction h with
  | refl => intro hc; cases hc with
    | inl h1 => exact absurd h1 (by simp)
    | inr h1 => exact absurd h1 (by simp)
  | tail _ hstep ih => exact HStep_preserves hstep ih

/-! ## Serialized executions of RecursiveGate

The spec restricts usage to a single consumer: at most one thread is
inside a `Close` at a time, concurrently with callers of `Open`.  Under
that contract, every permit-state access happens in one of five critical
sections, each performed atomically under `mtx`: the whole of a
non-parking `Close`; the pre-park half of a parking `Close` (check, take
token, release `mtx`); the whole of an `Open` (including, when a waiter
was parked, the wake handshake and the increment — the woken waiter
cannot decrement yet, since it blocks on `mtx.lock()` until the opener
releases `mtx`); and the post-wake half of a parking `Close` (reacquire
`mtx`, decrement).  `RGStep` lists these atomic actions. -/

/-- Phase of the (unique) consumer thread with respect to a parking
`Close`: not inside a parked `Close`; parked in `cv.wait`; or woken by
an `Open` but its trailing decrement still pending. -/
inductive WaiterPhase where
  | idle
  | parked
  | woken
  deriving DecidableEq

/-- State of a serialized `RecursiveGate` execution: the permit count
plus the consumer's phase. -/
structure RGSys where
  count : Int
  waiter : WaiterPhase
  deriving DecidableEq

/-- Atomic critical sections of untimed `RecursiveGate::Close` and
`RecursiveGate::Open` in a serialized execution (no timed variant, so a
parked wait ends only by an `Open`'s notification). -/
inductive RGStep : RGSys → RGSys → Prop where
  | closeFast (c : Int) : 0 < c → RGStep ⟨c, .idle⟩ ⟨c - 1, .idle⟩
  | closePark (c : Int) : c ≤ 0 → RGStep ⟨c, .idle⟩ ⟨c, .parked⟩
  | openQueue (c : Int) (w : WaiterPhase) : w ≠ .parked →
      RGStep ⟨c, w⟩ ⟨c + 1, w⟩
  | openWake (c : Int) : RGStep ⟨c, .parked⟩ ⟨c + 1, .woken⟩
  | closeFinish (c : Int) : RGStep ⟨c, .woken⟩ ⟨c - 1, .idle⟩

/-- States reachable from a freshly constructed `RecursiveGate`
(`ClosingAmount = 0`, no close in flight). -/
def RGReachable (s : RGSys) : Prop :=
  Relation.ReflTransGen RGStep ⟨0, .idle⟩ s

/-- Invariant of serialized untimed executions: the count is
non-negative, and a woken waiter still has the permit that woke it to
consume. -/
def RGInv (s : RGSys) : Prop :=
  0 ≤ s.count ∧ (s.waiter = .woken → 1 ≤ s.count)

lemma RGStep_preserves {s t : RGSys} (h : RGStep s t) (hs : RGInv s) :
    RGInv t := by
  obtain ⟨h1, h2⟩ := hs
  cases h with
  | closeFast c hc =>
      have h1c : (0 : Int) ≤ c := h1
      refine ⟨show (0 : Int) ≤ c - 1 by omega, ?_⟩
      intro hw
      exact absurd hw (by simp)
  | closePark c hc =>
      exact ⟨h1, by intro hw; exact absurd hw (by simp)⟩
  | openQueue c w hw =>
      have h1c : (0 : Int) ≤ c := h1
      refine ⟨show (0 : Int) ≤ c + 1 by omega, ?_⟩
      intro hww
      show (1 : Int) ≤ c + 1
      omega
  | openWake c =>
      have h1c : (0 : Int) ≤ c := h1
      refine ⟨show (0 : Int) ≤ c + 1 by omega, ?_⟩
      intro _
      show (1 : Int) ≤ c + 1
      omega
  | closeFinish c =>
      have h2c : (1 : Int) ≤ c := h2 rfl
      refine ⟨show (0 : Int) ≤ c - 1 by omega, ?_⟩
      intro hw
      exact absurd hw (by simp)

lemma RGReachable_inv {s : RGSys} (h : RGReachable s) : RGInv s := by
  induction h with
  | refl => exact ⟨le_refl 0, by intro hw; exact absurd hw (by simp)⟩
  | tail _ hstep ih => exact RGStep_preserves hstep ih

/-! ## Helper lemmas about iterated RecursiveGate operations -/

lemma openN_count (n : Nat) (g : RecursiveGate) :
    (RecursiveGate.openN n g).ClosingAmount = g.ClosingAmount + n := by
  induction n generalizing g with
  | zero => simp [RecursiveGate.openN]
  | succ n ih =>
      have hstep : RecursiveGate.openN (n + 1) g =
          RecursiveGate.openN n (RecursiveGate.Open false g) := rfl
      rw [hstep, ih]
      simp [RecursiveGate.Open]
      omega

lemma closeRun_all_pass (n : Nat) (g : RecursiveGate)
    (h : (n : Int) ≤ g.ClosingAmount) :
    RecursiveGate.closeRun n g =
      (List.replicate n false, { ClosingAmount := g.ClosingAmount - n }) := by
  induction n generalizing g with
  | zero => cases g; simp [RecursiveGate.closeRun]
  | succ n ih =>
      have hn : ((n : Int) + 1) ≤ g.ClosingAmount := by push_cast at h; omega
      have hc : ¬ g.ClosingAmount ≤ 0 := by omega
      have hclose : RecursiveGate.Close g =
          (false, { ClosingAmount := g.ClosingAmount - 1 }) := by
        simp [RecursiveGate.Close, hc]
      have hrec := ih { ClosingAmount := g.ClosingAmount - 1 }
        (by show (n : Int) ≤ g.ClosingAmount - 1; omega)
      have hter : RecursiveGate.closeRun (n + 1) g =
          ((RecursiveGate.Close g).1 ::
              (RecursiveGate.closeRun n (RecursiveGate.Close g).2).1,
            (RecursiveGate.closeRun n (RecursiveGate.Close g).2).2) := rfl
      rw [hter, hclose]
      simp [hrec, List.replicate_succ, Prod.mk.injEq, RecursiveGate.mk.injEq]
      omega

/-! ## The claims -/

/-- C1: for every Gate or RecursiveGate instance, if a thread is parked
in Close at the time Open is called, Open does not return until it has
positively confirmed that the parked thread has actually been released
(woken from the wait and past its release of the waiter-present token
`condVarMutex`); it never returns having merely fired a notification.
In every reachable state of the handshake in which the opener has
returned, the waiter is past its token release. -/
theorem open_confirms_waiter_release (s : Handshake) (h : HReachable s)
    (hret : s.opc = OpenPC.returned) :
    s.wpc = WaiterPC.releasedToken ∨ s.wpc = WaiterPC.relockedGuard := by
  have hfree := HReachable_inv h (Or.inr hret)
  cases hw : s.wpc with
  | parkedInWait => rw [hw] at hfree; exact absurd hfree (by simp [tokenHeld])
  | wokenHoldingToken => rw [hw] at hfree; exact absurd hfree (by simp [tokenHeld])
  | releasedToken => exact Or.inl rfl
  | relockedGuard => exact Or.inr rfl

/-- Witness for C1: a concrete five-step run of the handshake reaching
a returned opener, on which the theorem applies. -/
theorem open_confirms_waiter_release_witness :
    (Handshake.mk OpenPC.returned WaiterPC.releasedToken).wpc =
        WaiterPC.releasedToken ∨
      (Handshake.mk OpenPC.returned WaiterPC.releasedToken).wpc =
        WaiterPC.relockedGuard :=
  open_confirms_waiter_release
    ⟨OpenPC.returned, WaiterPC.releasedToken⟩
    (Relation.ReflTransGen.tail
      (Relation.ReflTransGen.tail
        (Relation.ReflTransGen.tail
          (Relation.ReflTransGen.tail
            (Relation.ReflTransGen.tail Relation.ReflTransGen.refl
              (HStep.tryLockFail WaiterPC.parkedInWait rfl))
            HStep.notifyWakes)
          (HStep.releaseToken OpenPC.spinning))
        (HStep.spinAcquire WaiterPC.releasedToken rfl))
      (HStep.openReturn WaiterPC.releasedToken))
    rfl

/-- C2: for every RecursiveGate and every N ≥ 1, N calls to Open
followed by N calls to Close leave every Close on the non-parking
branch and bring the count back to 0; Close parks exactly when the
pending count is ≤ 0, each Open adds one and each Close subtracts
one. -/
theorem recursive_n_opens_satisfy_n_closes (N : Nat) (_hN : 1 ≤ N) :
    (RecursiveGate.openN N RecursiveGate.init).ClosingAmount = N ∧
    (RecursiveGate.closeRun N (RecursiveGate.openN N RecursiveGate.init)).1 =
      List.replicate N false ∧
    (RecursiveGate.closeRun N (RecursiveGate.openN N RecursiveGate.init)).2 =
      RecursiveGate.init ∧
    (∀ g : RecursiveGate,
      (RecursiveGate.Close g).1 = true ↔ g.ClosingAmount ≤ 0) ∧
    (∀ (w : Bool) (g : RecursiveGate),
      (RecursiveGate.Open w g).ClosingAmount = g.ClosingAmount + 1) ∧
    (∀ g : RecursiveGate,
      (RecursiveGate.Close g).2.ClosingAmount = g.ClosingAmount - 1) := by
  have hcount : (RecursiveGate.openN N RecursiveGate.init).ClosingAmount = N := by
    rw [openN_count]
    simp [RecursiveGate.init]
  have hrun := closeRun_all_pass N (RecursiveGate.openN N RecursiveGate.init)
    (le_of_eq hcount.symm)
  refine ⟨hcount, ?_, ?_, ?_, ?_, ?_⟩
  · rw [hrun]
  · rw [hrun, hcount]
    simp [RecursiveGate.init]
  · intro g
    by_cases h : g.ClosingAmount ≤ 0 <;> simp [RecursiveGate.Close, h]
  · intro w g
    cases w <;> simp [RecursiveGate.Open]
  · intro g
    by_cases h : g.ClosingAmount ≤ 0 <;> simp [RecursiveGate.Close, h]

/-- Witness for C2 at N = 3, evaluating the run concretely. -/
theorem recursive_n_opens_satisfy_n_closes_witness :
    (RecursiveGate.closeRun 3 (RecursiveGate.openN 3 RecursiveGate.init)).1 =
      List.replicate 3 false :=
  (recursive_n_opens_satisfy_n_closes 3 (by decide)).2.1

/-- C3: multiple Gate Open calls with no intervening Close queue at most
one permit: after two Opens, a first Close returns on the non-parking
branch and a second Close parks; Open on an already-open gate leaves the
state unchanged. -/
theorem gate_open_queues_at_most_one_permit :
    (Gate.Close (Gate.Open false (Gate.Open false Gate.init))).1 = false ∧
    (Gate.Close
      (Gate.Close (Gate.Open false (Gate.Open false Gate.init))).2).1 = true ∧
    (∀ g : Gate, Gate.Open false (Gate.Open false g) = Gate.Open false g) := by
  exact ⟨rfl, rfl, fun g => rfl⟩

/-- C4: for both classes the timed Close variants change the permit
state exactly as the unbounded Close does, for every wake instant and
hence regardless of whether the wait was woken or timed out; a
RecursiveGate CloseFor that times out with no matching Open still
decrements, driving a fresh instance to count -1. -/
theorem timed_close_consumes_like_unbounded :
    (∀ (wake : Option Nat) (now d : Nat) (g : Gate),
        (Gate.CloseFor wake now d g).2 = (Gate.Close g).2 ∧
        (Gate.CloseUntil wake now d g).2 = (Gate.Close g).2 ∧
        (Gate.CloseFor wake now d g).1.parked = (Gate.Close g).1 ∧
        (Gate.CloseUntil wake now d g).1.parked = (Gate.Close g).1) ∧
    (∀ (wake : Option Nat) (now d : Nat) (g : RecursiveGate),
        (RecursiveGate.CloseFor wake now d g).2 = (RecursiveGate.Close g).2 ∧
        (RecursiveGate.CloseUntil wake now d g).2 = (RecursiveGate.Close g).2 ∧
        (RecursiveGate.CloseFor wake now d g).1.parked =
          (RecursiveGate.Close g).1 ∧
        (RecursiveGate.CloseUntil wake now d g).1.parked =
          (RecursiveGate.Close g).1) ∧
    (RecursiveGate.CloseFor none 0 100 RecursiveGate.init).1.timedOut = true ∧
    (RecursiveGate.CloseFor none 0 100 RecursiveGate.init).2.ClosingAmount
      = -1 := by
  refine ⟨?_, ?_, by decide, by decide⟩
  · intro wake now d g
    by_cases h : g.IsActivated = true <;>
      simp [Gate.CloseFor, Gate.CloseUntil, Gate.Close, h]
  · intro wake now d g
    by_cases h : g.ClosingAmount ≤ 0 <;>
      simp [RecursiveGate.CloseFor, RecursiveGate.CloseUntil,
        RecursiveGate.Close, h]

/-- C5: in serialized executions without timed variants the
RecursiveGate count is non-negative in every reachable state (hence
before and after every operation), and Gate's permit state is a 0/1
saturating flag: a second Open changes nothing, one Open makes a permit
available and the following Close consumes it back to not-available. -/
theorem recursive_count_nonneg_gate_saturating :
    (∀ s : RGSys, RGReachable s → 0 ≤ s.count) ∧
    (∀ g : Gate, Gate.Open false (Gate.Open false g) = Gate.Open false g) ∧
    (∀ g : Gate, Gate.permitAvailable (Gate.Open false g) = true) ∧
    (∀ g : Gate,
      Gate.permitAvailable (Gate.Close (Gate.Open false g)).2 = false) := by
  refine ⟨?_, fun g => rfl, fun g => rfl, fun g => rfl⟩
  intro s h
  exact (RGReachable_inv h).1

/-- Witness for C5: a concrete park/wake/finish run from a fresh
RecursiveGate, on which the invariant theorem applies. -/
theorem recursive_count_nonneg_gate_saturating_witness :
    0 ≤ (RGSys.mk (0 + 1 - 1) WaiterPhase.idle).count :=
  recursive_count_nonneg_gate_saturating.1 ⟨0 + 1 - 1, WaiterPhase.idle⟩
    (Relation.ReflTransGen.tail
      (Relation.ReflTransGen.tail
        (Relation.ReflTransGen.tail Relation.ReflTransGen.refl
          (RGStep.closePark 0 (by decide)))
        (RGStep.openWake 0))
      (RGStep.closeFinish (0 + 1)))

/-- C6: a freshly constructed Gate has no pending permit
(`IsActivated = true`) and a freshly constructed RecursiveGate has
count 0; the first Close or timed Close on either, with no prior Open,
takes the parking branch. -/
theorem fresh_gate_first_close_parks :
    Gate.init.IsActivated = true ∧
    Gate.permitAvailable Gate.init = false ∧
    (Gate.Close Gate.init).1 = true ∧
    (∀ wake now d, (Gate.CloseFor wake now d Gate.init).1.parked = true) ∧
    (∀ wake now t, (Gate.CloseUntil wake now t Gate.init).1.parked = true) ∧
    RecursiveGate.init.ClosingAmount = 0 ∧
    (RecursiveGate.Close RecursiveGate.init).1 = true ∧
    (∀ wake now d,
      (RecursiveGate.CloseFor wake now d RecursiveGate.init).1.parked = true) ∧
    (∀ wake now t,
      (RecursiveGate.CloseUntil wake now t RecursiveGate.init).1.parked
        = true) := by
  refine ⟨rfl, rfl, rfl, fun wake now d => rfl, fun wake now t => rfl, rfl,
    ?_, fun wake now d => ?_, fun wake now t => ?_⟩
  · simp [RecursiveGate.Close, RecursiveGate.init]
  · simp [RecursiveGate.CloseFor, RecursiveGate.init]
  · simp [RecursiveGate.CloseUntil, RecursiveGate.init]

/-- C7: every RecursiveGate Close and timed Close maps the permit state
to exactly count - 1, on both the parking and the non-parking branch,
and every Open maps it to exactly count + 1, with or without a parked
waiter; the resulting permit state is fully determined, so no other
part of it is modified. -/
theorem recursive_ops_unit_delta :
    (∀ g : RecursiveGate,
        (RecursiveGate.Close g).2 =
          { ClosingAmount := g.ClosingAmount - 1 }) ∧
    (∀ (wake : Option Nat) (now d : Nat) (g : RecursiveGate),
        (RecursiveGate.CloseFor wake now d g).2 =
          { ClosingAmount := g.ClosingAmount - 1 }) ∧
    (∀ (wake : Option Nat) (now t : Nat) (g : RecursiveGate),
        (RecursiveGate.CloseUntil wake now t g).2 =
          { ClosingAmount := g.ClosingAmount - 1 }) ∧
    (∀ (w : Bool) (g : RecursiveGate),
        RecursiveGate.Open w g =
          { ClosingAmount := g.ClosingAmount + 1 }) := by
  refine ⟨?_, ?_, ?_, ?_⟩
  · intro g
    by_cases h : g.ClosingAmount ≤ 0 <;> simp [RecursiveGate.Close, h]
  · intro wake now d g
    by_cases h : g.ClosingAmount ≤ 0 <;> simp [RecursiveGate.CloseFor, h]
  · intro wake now t g
    by_cases h : g.ClosingAmount ≤ 0 <;> simp [RecursiveGate.CloseUntil, h]
  · intro w g
    cases w <;> simp [RecursiveGate.Open]

/-- C8: for every instance, wake instant and duration d, CloseFor(d)
called at instant now coincides with CloseUntil(now + d): result and
permit state are identical, for both classes. -/
theorem close_until_equals_close_for :
    (∀ (wake : Option Nat) (now d : Nat) (g : Gate),
        Gate.CloseFor wake now d g = Gate.CloseUntil wake now (now + d) g) ∧
    (∀ (wake : Option Nat) (now d : Nat) (g : RecursiveGate),
        RecursiveGate.CloseFor wake now d g =
          RecursiveGate.CloseUntil wake now (now + d) g) := by
  exact ⟨fun wake now d g => rfl, fun wake now d g => rfl⟩

/-- C9: a CloseFor with no pending permit and no concurrent Open (no
wake instant ever arrives) returns, at exactly the instant now + d, with
a timeout — the timed park is bounded by the duration rather than
indefinite. -/
theorem close_for_no_permit_returns_at_deadline (now d : Nat) (g : Gate)
    (hg : g.IsActivated = true) (gr : RecursiveGate)
    (hgr : gr.ClosingAmount ≤ 0) :
    now + d ≤ (Gate.CloseFor none now d g).1.returnTime ∧
    (Gate.CloseFor none now d g).1.returnTime = now + d ∧
    (Gate.CloseFor none now d g).1.timedOut = true ∧
    now + d ≤ (RecursiveGate.CloseFor none now d gr).1.returnTime ∧
    (RecursiveGate.CloseFor none now d gr).1.returnTime = now + d ∧
    (RecursiveGate.CloseFor none now d gr).1.timedOut = true := by
  simp [Gate.CloseFor, RecursiveGate.CloseFor, cvWaitFor, cvWaitUntil, hg, hgr]

/-- Witness for C9 on fresh instances with now = 0 and d = 100. -/
theorem close_for_no_permit_returns_at_deadline_witness :
    Gate.init.IsActivated = true ∧
    RecursiveGate.init.ClosingAmount ≤ 0 ∧
    ((0 : Nat) + 100 ≤ (Gate.CloseFor none 0 100 Gate.init).1.returnTime ∧
      (Gate.CloseFor none 0 100 Gate.init).1.returnTime = 0 + 100 ∧
      (Gate.CloseFor none 0 100 Gate.init).1.timedOut = true ∧
      (0 : Nat) + 100 ≤
        (RecursiveGate.CloseFor none 0 100 RecursiveGate.init).1.returnTime ∧
      (RecursiveGate.CloseFor none 0 100 RecursiveGate.init).1.returnTime
        = 0 + 100 ∧
      (RecursiveGate.CloseFor none 0 100 RecursiveGate.init).1.timedOut
        = true) :=
  ⟨rfl, by decide,
    close_for_no_permit_returns_at_deadline 0 100 Gate.init rfl
      RecursiveGate.init (by decide)⟩

/-- C10: for Gate, the parking branch of Close, CloseFor and CloseUntil
leaves the permit flag exactly as it was, for every wake instant (woken
or timed out); since the branch is taken with `IsActivated = true`, a
timed-out CloseFor consumes no permit and a woken Close leaves the gate
with no pending permit. -/
theorem gate_parked_branch_preserves_flag (g : Gate)
    (hg : g.IsActivated = true) :
    (Gate.Close g).2 = g ∧
    (∀ wake now d, (Gate.CloseFor wake now d g).2 = g) ∧
    (∀ wake now t, (Gate.CloseUntil wake now t g).2 = g) ∧
    Gate.permitAvailable g = false := by
  refine ⟨?_, fun wake now d => ?_, fun wake now t => ?_, ?_⟩ <;>
    simp [Gate.Close, Gate.CloseFor, Gate.CloseUntil, Gate.permitAvailable, hg]

/-- Witness for C10 on a fresh Gate. -/
theorem gate_parked_branch_preserves_flag_witness :
    Gate.init.IsActivated = true ∧
    ((Gate.Close Gate.init).2 = Gate.init ∧
      (∀ wake now d, (Gate.CloseFor wake now d Gate.init).2 = Gate.init) ∧
      (∀ wake now t, (Gate.CloseUntil wake now t Gate.init).2 = Gate.init) ∧
      Gate.permitAvailable Gate.init = false) :=
  ⟨rfl, gate_parked_branch_preserves_flag Gate.init rfl⟩

end ThreadGate
